import Mathlib

/-!
Verification of the request-construction layer of a Notion API client
(`notion.py`).  The client is a single class `api`: its constructor checks
the bearer token and builds a fixed header set, and each method builds a
request body (a JSON object containing only the truthy supplied fields),
a URL, and dispatches one HTTP call, returning the transport's response
unmodified.

The embedding below mirrors the Python source: optional JSON-valued
parameters are modelled by a `Json` type whose `truthy` predicate matches
Python truthiness (`None`, `""`, `0`, `[]` and empty objects are falsy);
optional string parameters that the source concatenates into URLs are
modelled as `Option String`; each method becomes a pure function from the
client state and its arguments to a `Request` descriptor.
-/

/-- JSON values as passed to the client's optional parameters.  `null`
models Python `None` (the default of every optional body parameter). -/
inductive Json where
  | null
  | bool (b : Bool)
  | num (n : Int)
  | str (s : String)
  | arr (items : List Json)
  | obj (fields : List (String × Json))

/-- Python truthiness of a JSON-like argument: `None`, `False`, `0`, the
empty string, the empty list and the empty dict are falsy; everything else
is truthy.  Every `if x:` test in the source is this predicate. -/
def Json.truthy : Json → Bool
  | Json.null => false
  | Json.bool b => b
  | Json.num n => n != 0
  | Json.str s => s != ""
  | Json.arr items => !items.isEmpty
  | Json.obj fields => !fields.isEmpty

/-- Python truthiness of an optional string argument (`None` or `""` are
falsy). -/
def pyStrTruthy : Option String → Bool
  | none => false
  | some s => !(s == "")

/-- The client state built by `api.__init__`: the fixed base URL
`notion_api` and the fixed header list `headers`. -/
structure Client where
  notion_api : String
  headers : List (String × String)
deriving DecidableEq

/-- The exception hierarchy of the source: `token_not_found_exception`
(subclass of `notion_exception`) carries the message given to `raise`. -/
inductive notion_exception where
  | token_not_found_exception (message : String)
deriving DecidableEq

/-- One HTTP request as dispatched by a method: verb, full URL, the header
list passed as `headers=`, and the optional JSON body passed as `json=`
(`none` models `json=None`, i.e. no body at all). -/
structure Request where
  method : String
  url : String
  headers : List (String × String)
  body : Option Json

/-- The field list of a request's JSON-object body (empty when the body is
absent or not an object). -/
def Request.bodyFields (r : Request) : List (String × Json) :=
  match r.body with
  | some (Json.obj fields) => fields
  | _ => []

/-- Whether the request's JSON-object body contains key `k`. -/
def Request.hasBodyKey (r : Request) (k : String) : Bool :=
  r.bodyFields.any (fun kv => k == kv.fst)

/-- The value stored under key `k` in the request's JSON-object body. -/
def Request.lookupBodyKey (r : Request) (k : String) : Option Json :=
  (r.bodyFields.find? (fun kv => k == kv.fst)).map Prod.snd

/-- `api.__init__(token=None)`: raises `token_not_found_exception("No
access token")` when the token is falsy (absent or empty), otherwise
stores the base URL and the fixed headers (Authorization with the Bearer
token, Content-Type, Notion-Version).  No network call occurs. -/
def api.init (token : Option String) : Except notion_exception Client :=
  if pyStrTruthy token then
    Except.ok
      { notion_api := "https://api.notion.com/v1/"
        headers :=
          [("Authorization", "Bearer " ++ token.getD ""),
           ("Content-Type", "Application/JSON"),
           ("Notion-Version", "2021-05-13")] }
  else
    Except.error (notion_exception.token_not_found_exception "No access token")

/-- `api.search(query=None, sort=None, filter=None)`: if any argument is
truthy, the body is a dict containing exactly the truthy ones in insertion
order `query`, `sort`, `filter`; otherwise `json=None`.  POST to
`search`. -/
def api.search (c : Client) (query sort filter : Json) : Request :=
  let data : Option Json :=
    if query.truthy || sort.truthy || filter.truthy then
      some (Json.obj
        ((if query.truthy then [("query", query)] else []) ++
         (if sort.truthy then [("sort", sort)] else []) ++
         (if filter.truthy then [("filter", filter)] else [])))
    else none
  { method := "POST", url := c.notion_api ++ "search",
    headers := c.headers, body := data }

/-- `api.retrieve_a_database(database_id)`: GET to `databases/{id}`, no
body. -/
def api.retrieve_a_database (c : Client) (database_id : String) : Request :=
  { method := "GET", url := c.notion_api ++ "databases/" ++ database_id,
    headers := c.headers, body := none }

/-- `api.query_a_database(database_id, filter=None, sorts=None,
start_cursor=None, page_size='100')`: if any of the four is truthy the
body is a dict with exactly the truthy ones in insertion order `filter`,
`sorts`, `start_cursor`, `page_size`; otherwise `json=None`.  POST to
`databases/{id}/query`.  The `page_size` default is the string `'100'`. -/
def api.query_a_database (c : Client) (database_id : String)
    (filter sorts start_cursor page_size : Json) : Request :=
  let data : Option Json :=
    if filter.truthy || sorts.truthy || start_cursor.truthy || page_size.truthy then
      some (Json.obj
        ((if filter.truthy then [("filter", filter)] else []) ++
         (if sorts.truthy then [("sorts", sorts)] else []) ++
         (if start_cursor.truthy then [("start_cursor", start_cursor)] else []) ++
         (if page_size.truthy then [("page_size", page_size)] else [])))
    else none
  { method := "POST",
    url := c.notion_api ++ "databases/" ++ database_id ++ "/query",
    headers := c.headers, body := data }

/-- `api.retrieve_a_page(page_id)`: GET to `pages/{id}`, no body. -/
def api.retrieve_a_page (c : Client) (page_id : String) : Request :=
  { method := "GET", url := c.notion_api ++ "pages/" ++ page_id,
    headers := c.headers, body := none }

/-- `api.create_a_page(parent=None, properties=None, children=None)`:
starts from an empty dict (so the body is always present, possibly the
empty object); a truthy parent is classified by the hyphen test
(`"-" in parent`) into a page-parent or database-parent fragment; truthy
properties and children are set verbatim.  POST to `pages`. -/
def api.create_a_page (c : Client) (parent : Option String)
    (properties children : Json) : Request :=
  let parentFields : List (String × Json) :=
    match parent with
    | none => []
    | some p =>
      if p == "" then []
      else if p.contains '-' then
        [("parent", Json.obj [("page_id", Json.str p)])]
      else
        [("parent", Json.obj [("database_id", Json.str p)])]
  let data : List (String × Json) :=
    parentFields ++
    (if properties.truthy then [("properties", properties)] else []) ++
    (if children.truthy then [("children", children)] else [])
  { method := "POST", url := c.notion_api ++ "pages",
    headers := c.headers, body := some (Json.obj data) }

/-- `api.update_a_page(page_id, properties=None)`: `data` is `None`
unless properties is truthy, in which case the properties object itself
becomes the entire body (no wrapping key).  PATCH to `pages/{id}`. -/
def api.update_a_page (c : Client) (page_id : String) (properties : Json) : Request :=
  let data : Option Json := if properties.truthy then some properties else none
  { method := "PATCH", url := c.notion_api ++ "pages/" ++ page_id,
    headers := c.headers, body := data }

/-- `api.retrieve_block_children(block_id, start_cursor=None,
page_size='100')`: the URL always carries `?page_size=` followed by the
page-size string; a truthy cursor appends `&start_cursor=` plus the
cursor.  GET, no body. -/
def api.retrieve_block_children (c : Client) (block_id : String)
    (start_cursor : Option String) (page_size : String) : Request :=
  let url0 := c.notion_api ++ "blocks/" ++ block_id ++ "/children?page_size=" ++ page_size
  let url1 :=
    match start_cursor with
    | none => url0
    | some sc => if sc == "" then url0 else url0 ++ "&start_cursor=" ++ sc
  { method := "GET", url := url1, headers := c.headers, body := none }

/-- `api.append_block_children(block_id, children)`: body is always the
one-key dict mapping `children` to the given list.  PATCH to
`blocks/{id}/children`. -/
def api.append_block_children (c : Client) (block_id : String) (children : Json) : Request :=
  { method := "PATCH",
    url := c.notion_api ++ "blocks/" ++ block_id ++ "/children",
    headers := c.headers, body := some (Json.obj [("children", children)]) }

/-- `api.retrieve_a_user(user_id)`: GET to `users/{id}`, no body. -/
def api.retrieve_a_user (c : Client) (user_id : String) : Request :=
  { method := "GET", url := c.notion_api ++ "users/" ++ user_id,
    headers := c.headers, body := none }

/-- `api.list_all_users(start_cursor=None, page_size='100')`: the URL
carries `?page_size=` plus the page-size string, and a truthy cursor
appends `&start_cursor=` plus the cursor.  GET, no body. -/
def api.list_all_users (c : Client) (start_cursor : Option String)
    (page_size : String) : Request :=
  let url0 := c.notion_api ++ "users?page_size=" ++ page_size
  let url1 :=
    match start_cursor with
    | none => url0
    | some sc => if sc == "" then url0 else url0 ++ "&start_cursor=" ++ sc
  { method := "GET", url := url1, headers := c.headers, body := none }

/-- Each method ends with `return r` where `r` is the transport call on
the built request: running a request against a transport returns the
transport's result unmodified. -/
def api.call {ρ : Type} (tr : Request → ρ) (r : Request) : ρ := tr r

/-- A sample client value used to instantiate universally quantified
theorems at concrete inputs. -/
def demoClient : Client :=
  { notion_api := "https://api.notion.com/v1/", headers := [] }

/-- The client produced by `api.init` from the token `"tok"`. -/
def tokClient : Client :=
  { notion_api := "https://api.notion.com/v1/"
    headers :=
      [("Authorization", "Bearer tok"),
       ("Content-Type", "Application/JSON"),
       ("Notion-Version", "2021-05-13")] }

/-- C6: a database query supplying only the identifier, with the default
page size, sends the non-empty body consisting of exactly the pair
mapping the page-size key to the string value 100 (a string, not a
number), via HTTP POST to the query path of that database. -/
theorem C6_query_default_body (c : Client) (did : String) :
    (api.query_a_database c did Json.null Json.null Json.null (Json.str "100")).body
      = some (Json.obj [("page_size", Json.str "100")]) ∧
    (api.query_a_database c did Json.null Json.null Json.null (Json.str "100")).method
      = "POST" ∧
    (api.query_a_database c did Json.null Json.null Json.null (Json.str "100")).url
      = c.notion_api ++ "databases/" ++ did ++ "/query" := by
  refine ⟨?_, rfl, rfl⟩
  rfl

/-- C2: constructing the client with an absent or empty (hence falsy)
token always raises `token_not_found_exception` with message
"No access token"; constructing with a non-empty token never raises (the
embedding is pure, so no network I/O is modelled or performed). -/
theorem C2_construction_token_check (t : Option String) :
    ((∃ c, api.init t = Except.ok c) ↔ pyStrTruthy t = true) ∧
    (api.init t
        = Except.error (notion_exception.token_not_found_exception "No access token")
      ↔ pyStrTruthy t = false) := by
  by_cases h : pyStrTruthy t = true
  · constructor
    · simp [api.init, h]
    · simp [api.init, h]
  · have h' : pyStrTruthy t = false := by
      cases hb : pyStrTruthy t
      · rfl
      · exact absurd hb h
    constructor
    · simp [api.init, h']
    · simp [api.init, h']

/-- C5: page update sends the supplied truthy properties mapping itself
as the entire request body (not nested under a wrapping key), sends no
body when properties is not supplied (null), and dispatches an HTTP PATCH
to the pages path of the given identifier. -/
theorem C5_update_page_body (c : Client) (pid : String) (props : Json) :
    (api.update_a_page c pid props).method = "PATCH" ∧
    (api.update_a_page c pid props).url = c.notion_api ++ "pages/" ++ pid ∧
    (api.update_a_page c pid props).body
      = (if props.truthy = true then some props else none) := by
  refine ⟨rfl, rfl, ?_⟩
  by_cases h : props.truthy = true
  · simp [api.update_a_page, h]
  · simp [api.update_a_page, h]

/-- C7: page creation with nothing supplied sends the empty JSON object
as its body (not an absent body), while search, database query and page
update send no body at all when nothing truthy is supplied to the body
construction (for database query this means the page-size default is
also overridden with a falsy value, since the default itself counts as
supplied). -/
theorem C7_empty_body_asymmetry (c : Client) (did pid : String) :
    (api.create_a_page c none Json.null Json.null).body = some (Json.obj []) ∧
    (api.search c Json.null Json.null Json.null).body = none ∧
    (api.query_a_database c did Json.null Json.null Json.null Json.null).body = none ∧
    (api.update_a_page c pid Json.null).body = none :=
  ⟨rfl, rfl, rfl, rfl⟩

/-- C10: overriding the database-query page-size default with a falsy
value (null or the empty string) while supplying no filter, sorts or
cursor leaves `data` equal to `None`, so the request carries no body at
all and the non-empty-body guarantee does not apply. -/
theorem C10_falsy_page_size_no_body (c : Client) (did : String) :
    (api.query_a_database c did Json.null Json.null Json.null Json.null).body = none ∧
    (api.query_a_database c did Json.null Json.null Json.null (Json.str "")).body = none :=
  ⟨rfl, rfl⟩

/-- Associativity of string concatenation, used to regroup the URL
fragments the source concatenates left to right. -/
theorem string_append_assoc (a b c : String) : a ++ b ++ c = a ++ (b ++ c) := by
  cases a with | mk la =>
  cases b with | mk lb =>
  cases c with | mk lc =>
  show String.mk (la ++ lb ++ lc) = String.mk (la ++ (lb ++ lc))
  rw [List.append_assoc]

/-- C3: for every non-empty parent identifier given to page creation, the
body's parent key holds the page-id fragment when the identifier contains
a hyphen and the database-id fragment when it does not. -/
theorem C3_parent_classification (c : Client) (p : String) (props ch : Json) :
    p ≠ "" →
    (api.create_a_page c (some p) props ch).lookupBodyKey "parent"
      = some (Json.obj
          [((if p.contains '-' then "page_id" else "database_id"), Json.str p)]) := by
  intro hp
  by_cases hc : p.contains '-'
  · simp [api.create_a_page, Request.lookupBodyKey, Request.bodyFields, hp, hc]
  · simp [api.create_a_page, Request.lookupBodyKey, Request.bodyFields, hp, hc]

/-- Witness for C3 at the hyphenated identifier "abc-123". -/
theorem C3_parent_classification_witness :
    "abc-123" ≠ "" ∧
    (api.create_a_page demoClient (some "abc-123") Json.null Json.null).lookupBodyKey "parent"
      = some (Json.obj
          [((if String.contains "abc-123" '-' then "page_id" else "database_id"),
            Json.str "abc-123")]) :=
  ⟨by decide, C3_parent_classification demoClient "abc-123" Json.null Json.null (by decide)⟩

/-- C8: block children retrieval with no cursor and the default page size
issues a GET whose URL is the children path of the block followed only by
the page-size query fragment with value 100; supplying a non-empty cursor
appends exactly the start-cursor fragment; no JSON body is sent in either
case. -/
theorem C8_block_children_paths (c : Client) (bid sc : String) :
    sc ≠ "" →
    ((api.retrieve_block_children c bid none "100").method = "GET" ∧
     (api.retrieve_block_children c bid none "100").url
       = c.notion_api ++ "blocks/" ++ bid ++ "/children?page_size=100" ∧
     (api.retrieve_block_children c bid none "100").body = none ∧
     (api.retrieve_block_children c bid (some sc) "100").url
       = c.notion_api ++ "blocks/" ++ bid ++ "/children?page_size=100&start_cursor=" ++ sc ∧
     (api.retrieve_block_children c bid (some sc) "100").body = none) := by
  intro hsc
  have hfuse : "/children?page_size=" ++ "100" = "/children?page_size=100" := rfl
  have hfuse2 : "/children?page_size=100" ++ "&start_cursor="
      = "/children?page_size=100&start_cursor=" := rfl
  refine ⟨rfl, ?_, rfl, ?_, ?_⟩
  · show c.notion_api ++ "blocks/" ++ bid ++ "/children?page_size=" ++ "100"
       = c.notion_api ++ "blocks/" ++ bid ++ "/children?page_size=100"
    rw [string_append_assoc, hfuse]
  · have hx : (api.retrieve_block_children c bid (some sc) "100").url
        = c.notion_api ++ "blocks/" ++ bid ++ "/children?page_size=" ++ "100"
          ++ "&start_cursor=" ++ sc := by
      simp [api.retrieve_block_children, hsc]
    rw [hx]
    rw [string_append_assoc (c.notion_api ++ "blocks/" ++ bid) "/children?page_size=" "100"]
    rw [hfuse]
    rw [string_append_assoc (c.notion_api ++ "blocks/" ++ bid) "/children?page_size=100"
          "&start_cursor="]
    rw [hfuse2]
  · simp [api.retrieve_block_children]

/-- Witness for C8 with block id "B1" and cursor "X". -/
theorem C8_block_children_paths_witness :
    "X" ≠ "" ∧
    ((api.retrieve_block_children demoClient "B1" none "100").method = "GET" ∧
     (api.retrieve_block_children demoClient "B1" none "100").url
       = demoClient.notion_api ++ "blocks/" ++ "B1" ++ "/children?page_size=100" ∧
     (api.retrieve_block_children demoClient "B1" none "100").body = none ∧
     (api.retrieve_block_children demoClient "B1" (some "X") "100").url
       = demoClient.notion_api ++ "blocks/" ++ "B1"
         ++ "/children?page_size=100&start_cursor=" ++ "X" ∧
     (api.retrieve_block_children demoClient "B1" (some "X") "100").body = none) :=
  ⟨by decide, C8_block_children_paths demoClient "B1" "X" (by decide)⟩

/-- C4 counterexample: the Content-Type header established at construction
is the literal string "Application/JSON", not "application/json" as the
claim states, so the claimed exact header set does not match the code. -/
theorem C4_headers_counterexample :
    ((api.init (some "tok")).toOption.map fun c => List.lookup "Content-Type" c.headers)
      = some (some "Application/JSON") ∧
    some (some "Application/JSON") ≠ (some (some "application/json") : Option (Option String)) := by
  constructor
  · rfl
  · decide

/-- C4 (amended): every request issued by every operation carries exactly
the fixed header set established at construction — Authorization with the
Bearer token, Content-Type with the literal value "Application/JSON"
(equivalent to application/json as a media type, but capitalized in the
code), and the fixed Notion-Version marker; the operations pass the
constructed header list through unchanged. -/
theorem C4_fixed_headers (t : String) (c : Client)
    (q so fi f s cur ps props ch uprops chn : Json) (parent : Option String)
    (did pid bid uid : String) (sc : Option String) (psz : String) :
    api.init (some t) = Except.ok c →
    (c.headers
       = [("Authorization", "Bearer " ++ t),
          ("Content-Type", "Application/JSON"),
          ("Notion-Version", "2021-05-13")] ∧
     (api.search c q so fi).headers = c.headers ∧
     (api.retrieve_a_database c did).headers = c.headers ∧
     (api.query_a_database c did f s cur ps).headers = c.headers ∧
     (api.retrieve_a_page c pid).headers = c.headers ∧
     (api.create_a_page c parent props ch).headers = c.headers ∧
     (api.update_a_page c pid uprops).headers = c.headers ∧
     (api.retrieve_block_children c bid sc psz).headers = c.headers ∧
     (api.append_block_children c bid chn).headers = c.headers ∧
     (api.retrieve_a_user c uid).headers = c.headers ∧
     (api.list_all_users c sc psz).headers = c.headers) := by
  intro h
  rw [api.init] at h
  by_cases ht : pyStrTruthy (some t) = true
  · rw [if_pos ht] at h
    injection h with h'
    subst h'
    exact ⟨rfl, rfl, rfl, rfl, rfl, rfl, rfl, rfl, rfl, rfl, rfl⟩
  · rw [if_neg ht] at h
    exact Except.noConfusion h

/-- Witness for C4 at token "tok" and concrete arguments. -/
theorem C4_fixed_headers_witness :
    api.init (some "tok") = Except.ok tokClient ∧
    (tokClient.headers
       = [("Authorization", "Bearer " ++ "tok"),
          ("Content-Type", "Application/JSON"),
          ("Notion-Version", "2021-05-13")] ∧
     (api.search tokClient Json.null Json.null Json.null).headers = tokClient.headers ∧
     (api.retrieve_a_database tokClient "d").headers = tokClient.headers ∧
     (api.query_a_database tokClient "d" Json.null Json.null Json.null Json.null).headers
       = tokClient.headers ∧
     (api.retrieve_a_page tokClient "p").headers = tokClient.headers ∧
     (api.create_a_page tokClient none Json.null Json.null).headers = tokClient.headers ∧
     (api.update_a_page tokClient "p" Json.null).headers = tokClient.headers ∧
     (api.retrieve_block_children tokClient "b" none "100").headers = tokClient.headers ∧
     (api.append_block_children tokClient "b" Json.null).headers = tokClient.headers ∧
     (api.retrieve_a_user tokClient "u").headers = tokClient.headers ∧
     (api.list_all_users tokClient none "100").headers = tokClient.headers) :=
  ⟨rfl, C4_fixed_headers "tok" tokClient Json.null Json.null Json.null Json.null Json.null
      Json.null Json.null Json.null Json.null Json.null Json.null none "d" "p" "b" "u"
      none "100" rfl⟩

/-- C1: for each operation with optional parameters the constructed body
contains a key exactly when the corresponding argument is truthy (supplied
and non-empty) — no extra keys and no null placeholders; the defaulted
page size of database query is itself truthy, so its key is present
whenever the default is in effect; page update sends the truthy
properties object itself as the whole body and otherwise no body. -/
theorem C1_body_keys_exact (c : Client) (q so fi : Json) (did : String)
    (f s cur ps : Json) (parent : Option String) (props ch : Json)
    (pid : String) (uprops : Json) (k : String) :
    ((api.search c q so fi).hasBodyKey k = true ↔
      ((k = "query" ∧ q.truthy = true) ∨ (k = "sort" ∧ so.truthy = true) ∨
       (k = "filter" ∧ fi.truthy = true))) ∧
    ((api.query_a_database c did f s cur ps).hasBodyKey k = true ↔
      ((k = "filter" ∧ f.truthy = true) ∨ (k = "sorts" ∧ s.truthy = true) ∨
       (k = "start_cursor" ∧ cur.truthy = true) ∨ (k = "page_size" ∧ ps.truthy = true))) ∧
    ((api.query_a_database c did f s cur (Json.str "100")).hasBodyKey "page_size" = true) ∧
    ((api.create_a_page c parent props ch).hasBodyKey k = true ↔
      ((k = "parent" ∧ pyStrTruthy parent = true) ∨ (k = "properties" ∧ props.truthy = true) ∨
       (k = "children" ∧ ch.truthy = true))) ∧
    ((api.update_a_page c pid uprops).body
       = (if uprops.truthy = true then some uprops else none)) := by
  refine ⟨?_, ?_, ?_, ?_, ?_⟩
  · cases hq : q.truthy <;> cases hs : so.truthy <;> cases hf : fi.truthy <;>
      simp [api.search, Request.hasBodyKey, Request.bodyFields, hq, hs, hf]
  · cases h1 : f.truthy <;> cases h2 : s.truthy <;> cases h3 : cur.truthy <;>
      cases h4 : ps.truthy <;>
      simp [api.query_a_database, Request.hasBodyKey, Request.bodyFields, h1, h2, h3, h4]
  · cases h1 : f.truthy <;> cases h2 : s.truthy <;> cases h3 : cur.truthy <;>
      simp [api.query_a_database, Request.hasBodyKey, Request.bodyFields, Json.truthy,
        h1, h2, h3]
  · cases parent with
    | none =>
      cases hp2 : props.truthy <;> cases hc2 : ch.truthy <;>
        simp [api.create_a_page, Request.hasBodyKey, Request.bodyFields, pyStrTruthy,
          hp2, hc2]
    | some p =>
      by_cases hp : p = ""
      · subst hp
        cases hp2 : props.truthy <;> cases hc2 : ch.truthy <;>
          simp [api.create_a_page, Request.hasBodyKey, Request.bodyFields, pyStrTruthy,
            hp2, hc2]
      · by_cases hyph : p.contains '-' <;>
          cases hp2 : props.truthy <;> cases hc2 : ch.truthy <;>
          simp [api.create_a_page, Request.hasBodyKey, Request.bodyFields, pyStrTruthy,
            hp, hyph, hp2, hc2]
  · cases hu : uprops.truthy <;> simp [api.update_a_page, hu]

/-- C9: every operation hands the transport's response back unmodified
for all argument values (including empty identifier strings, which the
universally quantified string arguments cover), and the only
client-defined error anywhere is the missing-token error of the
constructor: construction either succeeds or fails with exactly
`token_not_found_exception "No access token"`. -/
theorem C9_response_pass_through {ρ : Type} (tr : Request → ρ) (c : Client)
    (t : Option String) (q so fi f s cur ps props ch uprops chn : Json)
    (parent : Option String) (did pid bid uid : String) (sc : Option String)
    (psz : String) :
    api.call tr (api.search c q so fi) = tr (api.search c q so fi) ∧
    api.call tr (api.retrieve_a_database c did) = tr (api.retrieve_a_database c did) ∧
    api.call tr (api.query_a_database c did f s cur ps)
      = tr (api.query_a_database c did f s cur ps) ∧
    api.call tr (api.retrieve_a_page c pid) = tr (api.retrieve_a_page c pid) ∧
    api.call tr (api.create_a_page c parent props ch)
      = tr (api.create_a_page c parent props ch) ∧
    api.call tr (api.update_a_page c pid uprops) = tr (api.update_a_page c pid uprops) ∧
    api.call tr (api.retrieve_block_children c bid sc psz)
      = tr (api.retrieve_block_children c bid sc psz) ∧
    api.call tr (api.append_block_children c bid chn)
      = tr (api.append_block_children c bid chn) ∧
    api.call tr (api.retrieve_a_user c uid) = tr (api.retrieve_a_user c uid) ∧
    api.call tr (api.list_all_users c sc psz) = tr (api.list_all_users c sc psz) ∧
    ((∃ cl, api.init t = Except.ok cl) ∨
      api.init t
        = Except.error (notion_exception.token_not_found_exception "No access token")) := by
  refine ⟨rfl, rfl, rfl, rfl, rfl, rfl, rfl, rfl, rfl, rfl, ?_⟩
  by_cases h : pyStrTruthy t = true
  · exact Or.inl ⟨_, by rw [api.init, if_pos h]⟩
  · exact Or.inr (by rw [api.init, if_neg h])
